import Mathlib

/-!
Verification of the GRIB GridSpec derivation and metadata-facade layer of the
`teal` repository (`earthkit/data/readers/grib/gridspec.py` and
`src/earthkit/data/readers/grib/metadata.py`), as a shallow embedding.

Python values that flow through these modules are numbers and strings; we model
numbers with `ℚ` (every numeric literal and arithmetic operation appearing in
the verified code paths is exact in `ℚ`, so no floating-point rounding can be
observed by the properties stated here).  Python `None` is modelled with
`Option`, exceptions with `Except`.
-/

set_option maxRecDepth 4000

namespace Grib

/-! ### Kernel-computable exact rational arithmetic

The `Rat` arithmetic operations of the ambient library are `@[irreducible]`,
which blocks `decide`-style evaluation.  The helpers below compute the same
exact values through the reducible constructors `mkRat`/`Rat.divInt`; the
bridge theorems prove each one equal to the standard operation, so the
embedding's arithmetic is exactly rational subtraction, division, absolute
value, maximum and minimum. -/

def qsub (a b : ℚ) : ℚ := mkRat (a.num * b.den - b.num * a.den) (a.den * b.den)

theorem qsub_eq_sub (a b : ℚ) : qsub a b = a - b := (Rat.sub_def' a b).symm

def qdiv (a b : ℚ) : ℚ := Rat.divInt (a.num * b.den) (a.den * b.num)

theorem qdiv_eq_div (a b : ℚ) : qdiv a b = a / b := (Rat.div_def' a b).symm

def qabs (a : ℚ) : ℚ := Rat.divInt (Int.ofNat a.num.natAbs) (Int.ofNat a.den)

theorem qabs_eq_abs (a : ℚ) : qabs a = |a| := (Rat.abs_def a).symm

def qmax (a b : ℚ) : ℚ := if a.num * (b.den : Int) ≤ b.num * (a.den : Int) then b else a

theorem qmax_eq_max (a b : ℚ) : qmax a b = max a b := by
  rw [qmax, max_def]; exact if_congr Rat.le_def.symm rfl rfl

def qmin (a b : ℚ) : ℚ := if a.num * (b.den : Int) ≤ b.num * (a.den : Int) then a else b

theorem qmin_eq_min (a b : ℚ) : qmin a b = min a b := by
  rw [qmin, min_def]; exact if_congr Rat.le_def.symm rfl rfl

/-- A Python value stored in a metadata key/value mapping: a number or a string. -/
inductive Val where
  | num (q : ℚ)
  | str (s : String)
deriving DecidableEq, Repr

/-- A metadata mapping (the dict backing `RawMetadata`, or the key/value view of
a GRIB handle): an association list, first binding wins, as in a Python dict. -/
abbrev MD := List (String × Val)

/-- Typed get `md.get(key, None)`: typed get of the KeyStore / `RawMetadata`, returning
`none` for an absent key. -/
def mdGet (md : MD) (k : String) : Option Val :=
  List.lookup k md

/-- Decidable equality for `Except` results (both components decidable). -/
instance {e a : Type} [DecidableEq e] [DecidableEq a] : DecidableEq (Except e a) := fun x y =>
  match x, y with
  | Except.error u, Except.error v =>
      if h : u = v then isTrue (by rw [h]) else isFalse (fun hc => by cases hc; exact h rfl)
  | Except.error _, Except.ok _ => isFalse (fun hc => by cases hc)
  | Except.ok _, Except.error _ => isFalse (fun hc => by cases hc)
  | Except.ok u, Except.ok v =>
      if h : u = v then isTrue (by rw [h]) else isFalse (fun hc => by cases hc; exact h rfl)

/-- Errors raised by the embedded code (`ValueError` / `TypeError` /
`ZeroDivisionError` / `KeyError` variants of the Python source). -/
inductive Err where
  | unsupported_grid_type (tag : Option Val)
  | could_not_determine (desc : String)
  | no_valid_keys (keys : List String)
  | scan_mode_error
  | vocab_error (key : String)
  | invalid_label (label : String)
  | type_error
  | zero_div_error
  | key_error (key : String)
deriving DecidableEq, Repr

/-- A value of the GridSpec dict built by the makers: either a scalar copied
from the metadata (or a computed number / label string), or a Python list whose
elements may be `None`. -/
inductive GVal where
  | scalar (v : Val)
  | vlist (xs : List (Option Val))
deriving DecidableEq, Repr

/-- The GridSpec dict (`d` in the makers; the mapping wrapped by `GridSpec`). -/
abbrev D := List (String × GVal)

/-- Python dict assignment `d[k] = v`: overwrite in place or append, preserving
insertion order. -/
def dset (d : D) (k : String) (v : GVal) : D :=
  if (List.lookup k d).isSome then
    d.map (fun p => if p.1 = k then (k, v) else p)
  else
    d ++ [(k, v)]

/-- Translation table from grib keys to gridspec keys (`vocabulary` in
gridspec.py). -/
def vocabulary : List (String × String) :=
  [ ("Nx", "nx"),
    ("Ny", "ny"),
    ("Ni", "ni"),
    ("Nj", "nj"),
    ("DxInMetres", "dx_in_metres"),
    ("DyInMetres", "dy_in_metres"),
    ("xDirectionGridLengthInMetres", "dx_in_metres"),
    ("yDirectionGridLengthInMetres", "dy_in_metres"),
    ("LaDInDegrees", "lad"),
    ("LoVInDegrees", "lov"),
    ("Latin1InDegrees", "latin1"),
    ("Latin2InDegrees", "latin2"),
    ("latitudeOfSouthernPoleInDegrees", "lat_south_pole"),
    ("longitudeOfSouthernPoleInDegrees", "lon_south_pole"),
    ("orientationOfTheGridInDegrees", "orientation"),
    ("jPointsAreConsecutive", "j_points_consecutive"),
    ("iScansNegatively", "i_scans_negatively"),
    ("jScansPositively", "j_scans_positively"),
    ("angleOfRotationInDegrees", "angle_of_rotation"),
    ("shapeOfTheEarth", "shape_of_the_earth"),
    ("radius", "radius"),
    ("earthMajorAxis", "earth_major_axis"),
    ("earthMinorAxis", "earth_minor_axis"),
    ("standardParallelInDegrees", "standard_parallel"),
    ("centralLongitudeInDegrees", "central_longitude") ]

/-- Source `missing_is_none` (defined identically in gridspec.py and metadata.py):
the sentinel integer 2147483647 is mapped to `None`; anything else (including
`None` itself and strings) passes through. -/
def missing_is_none (x : Option Val) : Option Val :=
  if x = some (Val.num 2147483647) then none else x

/-- Source `GridSpecMaker._get_first_valid`: first key whose value is not `None`;
raises `ValueError` naming `desc` (or the key list when `desc` is empty). -/
def _get_first_valid (md : MD) (keys : List String) (desc : String) : Except Err Val :=
  match keys.findSome? (fun k => mdGet md k) with
  | some v => Except.ok v
  | none =>
      if desc = "" then Except.error (Err.no_valid_keys keys)
      else Except.error (Err.could_not_determine desc)

def first_lon (md : MD) : Option Val :=
  mdGet md "longitudeOfFirstGridPointInDegrees"

def last_lon (md : MD) : Option Val :=
  mdGet md "longitudeOfLastGridPointInDegrees"

def first_lat (md : MD) : Option Val :=
  mdGet md "latitudeOfFirstGridPointInDegrees"

def last_lat (md : MD) : Option Val :=
  mdGet md "latitudeOfLastGridPointInDegrees"

/-- Python `max` on two values: defined on two numbers or two strings
(lexicographic); `None` or mixed operands raise `TypeError`. -/
def pyMax (a b : Option Val) : Except Err Val :=
  match a, b with
  | some (Val.num x), some (Val.num y) => Except.ok (Val.num (qmax x y))
  | some (Val.str x), some (Val.str y) => Except.ok (Val.str (max x y))
  | _, _ => Except.error Err.type_error

/-- Python `min`, with the same domain as `pyMax`. -/
def pyMin (a b : Option Val) : Except Err Val :=
  match a, b with
  | some (Val.num x), some (Val.num y) => Except.ok (Val.num (qmin x y))
  | some (Val.str x), some (Val.str y) => Except.ok (Val.str (min x y))
  | _, _ => Except.error Err.type_error

/-- Python subtraction `a - b` on metadata values (numbers only). -/
def pySub (a b : Option Val) : Except Err ℚ :=
  match a, b with
  | some (Val.num x), some (Val.num y) => Except.ok (qsub x y)
  | _, _ => Except.error Err.type_error

/-- Python `abs` on a metadata value. -/
def pyAbs (v : Val) : Except Err ℚ :=
  match v with
  | Val.num q => Except.ok (qabs q)
  | Val.str _ => Except.error Err.type_error

/-- Python `abs` applied to the result of a bare `md.get` (may be `None`). -/
def pyAbsO (v : Option Val) : Except Err ℚ :=
  match v with
  | some (Val.num q) => Except.ok (qabs q)
  | _ => Except.error Err.type_error

/-- Python true division with an explicit `ZeroDivisionError`. -/
def pyDiv (a b : ℚ) : Except Err ℚ :=
  if b = 0 then Except.error Err.zero_div_error else Except.ok (qdiv a b)

/-- Source `GridSpecMaker.x_scan_dir`: two-key fallback, `iScansNegatively` first
(value `0` means positive scan), then `iScansPositively` (value `1` means
positive scan), else `ValueError`.  `POSITIVE_SCAN_DIR = 1`,
`NEGATIVE_SCAN_DIR = -1`. -/
def x_scan_dir (md : MD) : Except Err Int :=
  match mdGet md "iScansNegatively" with
  | some v => Except.ok (if v = Val.num 0 then 1 else -1)
  | none =>
      match mdGet md "iScansPositively" with
      | some v => Except.ok (if v = Val.num 1 then 1 else -1)
      | none => Except.error Err.scan_mode_error

/-- Source `GridSpecMaker.north`: `max(first_lat, last_lat)`. -/
def north (md : MD) : Except Err Val :=
  pyMax (first_lat md) (last_lat md)

/-- Source `GridSpecMaker.south`: `min(first_lat, last_lat)`. -/
def south (md : MD) : Except Err Val :=
  pyMin (first_lat md) (last_lat md)

/-- Source `GridSpecMaker.west`: first or last longitude depending on the scan
direction. -/
def west (md : MD) : Except Err (Option Val) :=
  match x_scan_dir md with
  | Except.error e => Except.error e
  | Except.ok s => if s = 1 then Except.ok (first_lon md) else Except.ok (last_lon md)

/-- Source `GridSpecMaker.east`: last or first longitude depending on the scan
direction. -/
def east (md : MD) : Except Err (Option Val) :=
  match x_scan_dir md with
  | Except.error e => Except.error e
  | Except.ok s => if s = 1 then Except.ok (last_lon md) else Except.ok (first_lon md)

/-- The `area` list `[north, west, south, east]` of the base maker, with the
source's left-to-right evaluation (and error) order. -/
def base_area (md : MD) : Except Err GVal :=
  match north md with
  | Except.error e => Except.error e
  | Except.ok n =>
  match west md with
  | Except.error e => Except.error e
  | Except.ok w =>
  match south md with
  | Except.error e => Except.error e
  | Except.ok s =>
  match east md with
  | Except.error e => Except.error e
  | Except.ok e2 => Except.ok (GVal.vlist [some n, w, some s, e2])

/-- Source `GridSpecMaker._add_one`: copy a raw key into the dict only if present,
translating its name through `vocabulary`; a present key absent from the
vocabulary is a `ValueError`. -/
def _add_one (md : MD) (key : String) (d : D) : Except Err D :=
  match mdGet md key with
  | none => Except.ok d
  | some v =>
      match List.lookup key vocabulary with
      | some k => Except.ok (dset d k (GVal.scalar v))
      | none => Except.error (Err.vocab_error key)

/-- Source `GridSpecMaker._add` on a list of keys. -/
def _add (md : MD) (keys : List String) (d : D) : Except Err D :=
  match keys with
  | [] => Except.ok d
  | k :: rest =>
      match _add_one md k d with
      | Except.error e => Except.error e
      | Except.ok d2 => _add md rest d2

/-- Source `GridSpecMaker._add_rotation`: for rotated families, add the south-pole
`rotation` pair (elements may be `None`) and the rotation angle. -/
def _add_rotation (md : MD) (rotated : Bool) (d : D) : Except Err D :=
  if rotated then
    let d2 := dset d "rotation"
      (GVal.vlist [mdGet md "latitudeOfSouthernPoleInDegrees",
                   mdGet md "longitudeOfSouthernPoleInDegrees"])
    _add_one md "angleOfRotationInDegrees" d2
  else Except.ok d

/-- Source `GridSpecMaker._add_scan_mode`. -/
def _add_scan_mode (md : MD) (d : D) : Except Err D :=
  _add md ["jPointsAreConsecutive", "iScansNegatively", "jScansPositively"] d

/-- Source `GridSpecMaker._add_earth`. -/
def _add_earth (md : MD) (d : D) : Except Err D :=
  _add md ["shapeOfTheEarth", "radius", "earthMajorAxis", "earthMinorAxis"] d

/-- One axis of `LatLonGridSpecMaker._get_grid` (and, for the j axis, the
verbatim duplicate in `ReducedLatLonGridSpecMaker._get_grid`): use the explicit
increment key when present, else derive the increment from the first valid
point-count key and the coordinate range, with a single-point axis giving the
fixed increment `1.0`.  The range is computed before the single-point test,
exactly as in the source. -/
def derived_axis_increment (md : MD) (inc_key : String) (count_keys : List String)
    (count_desc : String) (last_key first_key : String) : Except Err Val :=
  match mdGet md inc_key with
  | some v => Except.ok v
  | none =>
      match _get_first_valid md count_keys count_desc with
      | Except.error e => Except.error e
      | Except.ok n =>
          match pySub (mdGet md last_key) (mdGet md first_key) with
          | Except.error e => Except.error e
          | Except.ok range =>
              if n = Val.num 1 then Except.ok (Val.num 1)
              else
                match n with
                | Val.num q =>
                    (match pyDiv range (qsub q 1) with
                     | Except.error e => Except.error e
                     | Except.ok r => Except.ok (Val.num r))
                | Val.str _ => Except.error Err.type_error

/-- The `dx` branch of `LatLonGridSpecMaker._get_grid`. -/
def latlon_dx (md : MD) : Except Err Val :=
  derived_axis_increment md "iDirectionIncrementInDegrees"
    ["numberOfPointsAlongAParallel", "Ni"] "number of points in longitude"
    "longitudeOfLastGridPointInDegrees" "longitudeOfFirstGridPointInDegrees"

/-- The `dy` branch of `LatLonGridSpecMaker._get_grid`, duplicated verbatim in
`ReducedLatLonGridSpecMaker._get_grid`. -/
def latlon_dy (md : MD) : Except Err Val :=
  derived_axis_increment md "jDirectionIncrementInDegrees"
    ["numberOfPointsAlongAMeridian", "Nj"] "number of points in latitude"
    "latitudeOfLastGridPointInDegrees" "latitudeOfFirstGridPointInDegrees"

/-- Source `LatLonGridSpecMaker.make` (also `RotatedLatLonGridSpecMaker.make`, which
inherits it with `GRID_TYPE = "rotated_ll"`, `ROTATED = True`). -/
def latlon_make (grid_type : String) (rotated : Bool) (md : MD) : Except Err D :=
  let d : D := [("type", GVal.scalar (Val.str grid_type))]
  match latlon_dx md with
  | Except.error e => Except.error e
  | Except.ok dx =>
  match latlon_dy md with
  | Except.error e => Except.error e
  | Except.ok dy =>
  match pyAbs dx with
  | Except.error e => Except.error e
  | Except.ok adx =>
  match pyAbs dy with
  | Except.error e => Except.error e
  | Except.ok ady =>
  let d := dset d "grid" (GVal.vlist [some (Val.num adx), some (Val.num ady)])
  match base_area md with
  | Except.error e => Except.error e
  | Except.ok area =>
  let d := dset d "area" area
  match _add_rotation md rotated d with
  | Except.error e => Except.error e
  | Except.ok d => _add_scan_mode md d

/-- Source `ReducedLatLonGridSpecMaker.make`: scalar `grid = abs(dy)`. -/
def reduced_ll_make (md : MD) : Except Err D :=
  let d : D := [("type", GVal.scalar (Val.str "reduced_ll"))]
  match latlon_dy md with
  | Except.error e => Except.error e
  | Except.ok dy =>
  match pyAbs dy with
  | Except.error e => Except.error e
  | Except.ok ady =>
  let d := dset d "grid" (GVal.scalar (Val.num ady))
  match base_area md with
  | Except.error e => Except.error e
  | Except.ok area =>
  let d := dset d "area" area
  match _add_rotation md false d with
  | Except.error e => Except.error e
  | Except.ok d => _add_scan_mode md d

/-- Python string conversion used for the Gaussian grid label
(`f"{label}{N}"`): exact for integer-valued `N` (the GRIB `N` key is an
integer); no claim depends on the formatting of other values. -/
def py_str (v : Option Val) : String :=
  match v with
  | none => "None"
  | some (Val.str s) => s
  | some (Val.num q) => if q.den = 1 then toString q.num else toString q

/-- The `area` list of `GaussianGridSpecMaker`, whose `west`/`east` overrides
return the first/last longitude directly (no scan-direction dispatch). -/
def gaussian_area (md : MD) : Except Err GVal :=
  match north md with
  | Except.error e => Except.error e
  | Except.ok n =>
  match south md with
  | Except.error e => Except.error e
  | Except.ok s => Except.ok (GVal.vlist [some n, first_lon md, some s, last_lon md])

/-- Source `GaussianGridSpecMaker.make` (with the constructor's label check):
`grid` is the label and the Gaussian number `N`; `area` is suppressed for a
whole-globe grid (`global == 1`). -/
def gaussian_make (grid_type : String) (rotated : Bool) (label : String) (md : MD) :
    Except Err D :=
  if label = "F" ∨ label = "N" ∨ label = "O" then
    let n := mdGet md "N"
    let global_grid := (match mdGet md "global" with
                        | some v => v
                        | none => Val.num 0) = Val.num 1
    let d : D := [("type", GVal.scalar (Val.str grid_type)),
                  ("grid", GVal.scalar (Val.str (label ++ py_str n)))]
    match (if global_grid then Except.ok d
           else match gaussian_area md with
                | Except.error e => Except.error e
                | Except.ok area => Except.ok (dset d "area" area)) with
    | Except.error e => Except.error e
    | Except.ok d =>
        match _add_rotation md rotated d with
        | Except.error e => Except.error e
        | Except.ok d => _add_scan_mode md d
  else Except.error (Err.invalid_label label)

/-- Source `ReducedGaussianGridSpecMaker.__init__` (also its rotated subclass):
the label is `"O"` when `isOctahedral == 1`, else `"N"`. -/
def reduced_gg_make (grid_type : String) (rotated : Bool) (md : MD) : Except Err D :=
  let octahedral := (match mdGet md "isOctahedral" with
                     | some v => v
                     | none => Val.num 0) = Val.num 1
  gaussian_make grid_type rotated (if octahedral then "O" else "N") md

/-- Source `MercatorGridSpecMaker.make`: increments from `DiInMetres`/`DjInMetres`,
base `area`, extra keys, scan mode. -/
def mercator_make (md : MD) : Except Err D :=
  let d : D := [("type", GVal.scalar (Val.str "mercator"))]
  let dx := mdGet md "DiInMetres"
  let dy := mdGet md "DjInMetres"
  match pyAbsO dx with
  | Except.error e => Except.error e
  | Except.ok adx =>
  match pyAbsO dy with
  | Except.error e => Except.error e
  | Except.ok ady =>
  let d := dset d "grid" (GVal.vlist [some (Val.num adx), some (Val.num ady)])
  match base_area md with
  | Except.error e => Except.error e
  | Except.ok area =>
  let d := dset d "area" area
  match _add md ["Ni", "Nj", "LaDInDegrees", "orientationOfTheGridInDegrees"] d with
  | Except.error e => Except.error e
  | Except.ok d => _add_scan_mode md d

/-- Source `PolarStereographicGridSpecMaker.make`: increments from
`DxInMetres`/`DyInMetres`, `first_point`, extra keys, scan mode. -/
def polar_stereographic_make (md : MD) : Except Err D :=
  let d : D := [("type", GVal.scalar (Val.str "polar_stereographic"))]
  let dx := mdGet md "DxInMetres"
  let dy := mdGet md "DyInMetres"
  match pyAbsO dx with
  | Except.error e => Except.error e
  | Except.ok adx =>
  match pyAbsO dy with
  | Except.error e => Except.error e
  | Except.ok ady =>
  let d := dset d "grid" (GVal.vlist [some (Val.num adx), some (Val.num ady)])
  let d := dset d "first_point" (GVal.vlist [first_lat md, first_lon md])
  match _add md ["Nx", "Ny", "LaDInDegrees", "orientationOfTheGridInDegrees"] d with
  | Except.error e => Except.error e
  | Except.ok d => _add_scan_mode md d

/-- Source `LambertGridSpecMaker.make`.  Note that the source requests the raw keys
`LatIn1InDegrees`/`LatIn2InDegrees`, which are not in `vocabulary` (the table
has `Latin1InDegrees`/`Latin2InDegrees`); a metadata object carrying them
raises the vocabulary `ValueError`. -/
def lambert_make (md : MD) : Except Err D :=
  let d : D := [("type", GVal.scalar (Val.str "lambert"))]
  let dx := mdGet md "DxInMetres"
  let dy := mdGet md "DyInMetres"
  match pyAbsO dx with
  | Except.error e => Except.error e
  | Except.ok adx =>
  match pyAbsO dy with
  | Except.error e => Except.error e
  | Except.ok ady =>
  let d := dset d "grid" (GVal.vlist [some (Val.num adx), some (Val.num ady)])
  let d := dset d "first_point" (GVal.vlist [first_lat md, first_lon md])
  match _add md ["Nx", "Ny", "LaDInDegrees", "LoVInDegrees",
                 "LatIn1InDegrees", "LatIn2InDegrees"] d with
  | Except.error e => Except.error e
  | Except.ok d => _add_scan_mode md d

/-- Source `LambertAEAGridSpecMaker._get_grid`, x increment.  The source reads the
fallback list `["DyInMetres", "xDirectionGridLengthInMetres"]` here — the
first key is the y-direction key `DyInMetres` even though the accompanying
error message says "x grid increment in metres". -/
def lambert_aea_dx (md : MD) : Except Err Val :=
  _get_first_valid md ["DyInMetres", "xDirectionGridLengthInMetres"]
    "x grid increment in metres"

/-- Source `LambertAEAGridSpecMaker._get_grid`, y increment. -/
def lambert_aea_dy (md : MD) : Except Err Val :=
  _get_first_valid md ["DyInMetres", "yDirectionGridLengthInMetres"]
    "y grid increment in metres"

/-- Source `LambertAEAGridSpecMaker.make`. -/
def lambert_aea_make (md : MD) : Except Err D :=
  let d : D := [("type", GVal.scalar (Val.str "lambert_azimuthal_equal_area"))]
  match lambert_aea_dx md with
  | Except.error e => Except.error e
  | Except.ok dx =>
  match lambert_aea_dy md with
  | Except.error e => Except.error e
  | Except.ok dy =>
  match pyAbs dx with
  | Except.error e => Except.error e
  | Except.ok adx =>
  match pyAbs dy with
  | Except.error e => Except.error e
  | Except.ok ady =>
  let d := dset d "grid" (GVal.vlist [some (Val.num adx), some (Val.num ady)])
  let d := dset d "first_point" (GVal.vlist [first_lat md, first_lon md])
  match _add md ["Nx", "Ny", "standardParallelInDegrees", "centralLongitudeInDegrees"] d with
  | Except.error e => Except.error e
  | Except.ok d => _add_scan_mode md d

/-- Source `grid_specs` registry: the mapping built at module import time from
the 11 Maker classes, keyed by their `GRID_TYPE` tags. -/
def grid_specs : List (String × (MD → Except Err D)) :=
  [ ("regular_ll", latlon_make "regular_ll" false),
    ("reduced_ll", reduced_ll_make),
    ("rotated_ll", latlon_make "rotated_ll" true),
    ("regular_gg", gaussian_make "regular_gg" false "F"),
    ("reduced_gg", reduced_gg_make "reduced_gg" false),
    ("rotated_gg", gaussian_make "rotated_gg" true "F"),
    ("reduced_rotated_gg", reduced_gg_make "reduced_rotated_gg" true),
    ("mercator", mercator_make),
    ("polar_stereographic", polar_stereographic_make),
    ("lambert", lambert_make),
    ("lambert_azimuthal_equal_area", lambert_aea_make) ]

/-- Source `make_gridspec`: dispatch on `metadata.get("gridType", None)` over
the `grid_specs` registry; an unregistered tag (including an absent or
non-string one) raises the unsupported-grid-type `TypeError` carrying the
tag. -/
def make_gridspec (md : MD) : Except Err D :=
  match mdGet md "gridType" with
  | some (Val.str s) =>
      match List.lookup s grid_specs with
      | some maker => maker md
      | none => Except.error (Err.unsupported_grid_type (some (Val.str s)))
  | t => Except.error (Err.unsupported_grid_type t)

/-- Whether a `gridType` tag hits the `grid_specs` registry (Python
`grid_type in grid_specs`: only string tags can be registry keys). -/
def registered (t : Option Val) : Bool :=
  match t with
  | some (Val.str s) => (List.lookup s grid_specs).isSome
  | _ => false

/-! ## metadata.py: geography, facade get, restricted view, override -/

/-- The result of `GribFieldGeography.shape`: a `(Nj, Ni)` pair for structured
grids, else the 1-tuple of the total point count (which may be `None`). -/
inductive Shape where
  | one (n : Option Val)
  | two (nj ni : Val)
deriving DecidableEq, Repr

/-- Source `GribFieldGeography.shape`: `Ni`/`Nj` with the missing-value sentinel
applied; when either is absent the 1-tuple of `numberOfDataPoints` is
returned. -/
def shape (md : MD) : Shape :=
  let nj := missing_is_none (mdGet md "Nj")
  let ni := missing_is_none (mdGet md "Ni")
  match ni, nj with
  | some i, some j => Shape.two j i
  | _, _ => Shape.one (mdGet md "numberOfDataPoints")

/-- String conversion applied by a `ktype=str` handle get (used by the
`shortName == "~"` special case). -/
def kstr (v : Option Val) : Option Val :=
  match v with
  | none => none
  | some (Val.str s) => some (Val.str s)
  | some (Val.num q) => some (Val.str (py_str (some (Val.num q))))

/-- Source `GribMetadata._get` with the default `default=None`: central typed-get with
the two aliasing special cases (`param` → `shortName`, `_param_id` → `paramId`)
and the tilde-sentinel special case (an unresolved `shortName` equal to `"~"`
is replaced by the string form of `paramId`). -/
def grib_md_get (h : MD) (key : String) : Option Val :=
  let key := if key = "param" then "shortName"
             else if key = "_param_id" then "paramId" else key
  let v := mdGet h key
  if key = "shortName" ∧ v = some (Val.str "~") then kstr (mdGet h "paramId")
  else v

/-- Source `RestrictedGribMetadata.INTERNAL_KEYS`. -/
def INTERNAL_KEYS : List String :=
  [ "minimum", "maximum", "average", "standardDeviation", "skewness",
    "kurtosis", "min", "max", "avg", "sd", "skew", "kurt", "const",
    "isConstant", "numberOfMissing", "numberOfCodedValues", "bitmapPresent",
    "offsetValuesBy", "packingError", "referenceValue", "referenceValueError",
    "unpackedError", "values", "latLonValues" ]

/-- Source `RestrictedGribMetadata.INTERNAL_NAMESPACES`. -/
def INTERNAL_NAMESPACES : List String := ["statistics"]

/-- Source `GribMetadata.NAMESPACES`. -/
def NAMESPACES : List String :=
  ["default", "ls", "geography", "mars", "parameter", "statistics", "time", "vertical"]

/-- Split a string at its first `.` (structural helper for Python
`str.partition(".")`). -/
def split_first_dot : List Char → Option (List Char × List Char)
  | [] => none
  | c :: cs =>
      if c = '.' then some ([], cs)
      else
        match split_first_dot cs with
        | some (a, b) => some (c :: a, b)
        | none => none

/-- Python `key.partition(".")` reduced to the `(ns, name)` pair the source
uses: when there is no dot, `ns` is the whole key and `name` is empty. -/
def py_partition_dot (key : String) : String × String :=
  match split_first_dot key.toList with
  | some (a, b) => (String.mk a, String.mk b)
  | none => (key, "")

/-- The `(ns, name)` pair after the source's empty-name fixup
(`if name == "": name = key; ns = ""`). -/
def ns_and_name (key : String) : String × String :=
  let p := py_partition_dot key
  if p.2 = "" then ("", key) else p

/-- Source `RestrictedGribMetadata.EKD_NAMESPACE`. -/
def EKD_NAMESPACE : String := "grib"

/-- Source `RestrictedGribMetadata._is_hidden`: a key is hidden when its namespace is
not the escape-hatch namespace and its unqualified name is in the hidden set. -/
def restricted_is_hidden (hidden : List String) (key : String) : Bool :=
  let p := ns_and_name key
  if p.1 = EKD_NAMESPACE then false else hidden.contains p.2

/-- Modelled from the spec: `WrappedMetadata.get` lives in
`earthkit.data.core.metadata`, which is not under `src/`.  Per §4.5 the wrapper
adds a hidden-key filter in front of the wrapped standalone facade: a key its
(subclass-overridable) `_is_hidden` reports hidden behaves as absent (the
default, `None`, is returned), any other key is delegated to the wrapped
metadata's `get`.  `inner` is the wrapped facade's `get`; `isHidden` is the
dynamically dispatched `_is_hidden`. -/
def wrapped_get (isHidden : String → Bool) (inner : String → Option Val)
    (key : String) : Option Val :=
  if isHidden key then none else inner key

/-- Source `RestrictedGribMetadata.get`: parse the key as `namespace.name`; when the
namespace is the escape hatch, strip it; then call `super().get` (the
`WrappedMetadata` get, with the restricted `_is_hidden`). -/
def restricted_get (inner : String → Option Val) (hidden : List String)
    (key : String) : Option Val :=
  let p := ns_and_name key
  let key := if p.1 = EKD_NAMESPACE then p.2 else key
  wrapped_get (restricted_is_hidden hidden) inner key

/-- A GRIB handle as seen by this layer (the external KeyStore collaborator):
its key/value view, its per-namespace key/value sets (the result of the
ecCodes `as_namespace` accessor; `none` is the un-namespaced "default" set),
and its value buffer. -/
structure Handle where
  kvs : MD
  nss : List (Option String × MD)
  values : List ℚ
deriving DecidableEq, Repr

/-- Modelled from the spec: the KeyStore's `as_namespace` accessor (the ecCodes
handle implementation is an external collaborator, not under `src/`); it
returns the stored key/value set of the requested namespace. -/
def handle_as_namespace (h : Handle) (ns : Option String) : MD :=
  (List.lookup ns h.nss).getD []

/-- Source `GribMetadata.as_namespace`: `"default"` and the empty string mean the
un-namespaced key set; everything else is passed to the handle. -/
def gm_as_namespace (h : Handle) (ns : Option String) : MD :=
  let ns := if ns = some "default" ∨ ns = some "" then none else ns
  handle_as_namespace h ns

/-- The `namespace` argument of `dump` (`all`, a single name, or a list). -/
inductive NsArg where
  | all
  | one (s : String)
  | listed (l : List String)
deriving DecidableEq, Repr

/-- One entry of the structure returned by `dump`. -/
structure DumpGroup where
  title : String
  data : MD
  tooltip : String
deriving DecidableEq, Repr

/-- Source `GribMetadata.dump`: enumerate the requested namespaces (`all` means
`self.namespaces()`, a plain `GribMetadata`'s full `NAMESPACES` list), fetch
each namespace's key/value set, and keep the non-empty ones as display groups.
Modelled from the spec: `format_namespace_dump` (`earthkit.data.utils.summary`,
not under `src/`) only wraps the group list for display, so it is modelled as
the identity on that list. -/
def gm_dump (h : Handle) (nsArg : NsArg) : List DumpGroup :=
  let nss := match nsArg with
             | NsArg.all => NAMESPACES
             | NsArg.one s => [s]
             | NsArg.listed l => l
  nss.filterMap (fun ns =>
    let v := gm_as_namespace h (some ns)
    if v = [] then none
    else some { title := if ns = "" then "default" else ns,
                data := v,
                tooltip := "Keys in the ecCodes " ++ ns ++ " namespace" })

/-- Source `RestrictedGribMetadata.namespaces`: the wrapped facade's namespaces with
the internal ones removed (`INTERNAL_NAMESPACES` is non-empty). -/
def restricted_namespaces : List String :=
  NAMESPACES.filter (fun x => !(INTERNAL_NAMESPACES.contains x))

/-- Source `RestrictedGribMetadata.as_namespace`: an internal namespace yields the
empty dict; otherwise the wrapped facade's result with the hidden keys
deleted. -/
def restricted_as_namespace (h : Handle) (ns : Option String) : MD :=
  if (match ns with
      | some s => INTERNAL_NAMESPACES.contains s
      | none => false) then []
  else
    (gm_as_namespace h ns).filter (fun kv => !(INTERNAL_KEYS.contains kv.1))

/-- Source `RestrictedGribMetadata.dump`: replace `all` by the restricted namespace
list, then delegate to the wrapped (unrestricted) facade's `dump`. -/
def restricted_dump (h : Handle) (nsArg : NsArg) : List DumpGroup :=
  let nsArg := match nsArg with
               | NsArg.all => NsArg.listed restricted_namespaces
               | x => x
  gm_dump h nsArg

/-! ### The override path (`GribMetadata.override`)

Handles have identity in Python; we model the heap of live handles as a
`World` (list of handles) addressed by position, so that "the original handle
is not mutated" and "the returned facade wraps a distinct fresh handle" are
expressible. -/

abbrev World := List Handle

/-- Modelled from the spec: the KeyStore's `clone(headers_only)` (external
collaborator, not under `src/`).  A headers-only clone omits non-header
fields: the value buffer, and keys (such as the value-precision key
`bitsPerValue`) that are not guaranteed to survive — §4.3 step 2. -/
def handle_clone (headersOnly : Bool) (h : Handle) : Handle :=
  if headersOnly then
    { kvs := h.kvs.filter (fun kv => !(kv.1 == "bitsPerValue" || kv.1 == "values")),
      nss := h.nss,
      values := [] }
  else h

/-- Setting one key on a metadata mapping (overwrite or append). -/
def md_set (m : MD) (k : String) (v : Val) : MD :=
  if (List.lookup k m).isSome then
    m.map (fun p => if p.1 = k then (k, v) else p)
  else m ++ [(k, v)]

/-- Python `d.update(md)` / `dict` merge: apply every binding of `patch` to
`m`. -/
def md_update (m : MD) (patch : MD) : MD :=
  patch.foldl (fun acc kv => md_set acc kv.1 kv.2) m

/-- KeyStore `set_multiple` (batched key set on a handle). -/
def handle_set_multiple (h : Handle) (d : MD) : Handle :=
  { h with kvs := md_update h.kvs d }

/-- KeyStore `set_long` (single key set). -/
def handle_set_long (h : Handle) (k : String) (v : Val) : Handle :=
  { h with kvs := md_set h.kvs k v }

/-- KeyStore `set_values` (replace the value buffer). -/
def handle_set_values (h : Handle) (vals : List ℚ) : Handle :=
  { h with values := vals }

/-- Source `GribMetadata._copy_key`: re-copy `key` from the source handle onto the
target (clone) only when both hold a value and the values differ. -/
def _copy_key (src tgt : Handle) (key : String) : Handle :=
  let v_ori := mdGet src.kvs key
  let v_new := mdGet tgt.kvs key
  match v_ori, v_new with
  | some a, some b => if a ≠ b then handle_set_long tgt key a else tgt
  | _, _ => tgt

/-- Source `GribMetadata.override`.  The caller's patch dict is modelled as its
`gridspec` entry (popped first in the source) plus the remaining plain
key/value entries `d0`.  `conv` is `GridSpecConverter.to_metadata`, which is
not under `src/` (only this call site is); it is abstracted as a parameter
mapping a GridSpec and an edition to extra key patches and an optional new
point count.  The facade's handle is `w[i]`; the returned facade wraps the
freshly appended handle.

Step 1 of `override`: pop the `gridspec` entry and, when present, run the
converter against the patch edition or the facade's own edition to obtain the
extra key patches and the optional new point count. -/
def override_patch (conv : D → Val → Except Err (MD × Option Nat)) (h : Handle)
    (gridspec : Option D) (d0 : MD) : Except Err (MD × Option Nat) :=
  match gridspec with
  | none => Except.ok (d0, (none : Option Nat))
  | some gs =>
      -- `edition = d.get("edition", self["edition"])`: the default is
      -- evaluated eagerly, so a facade without an edition key raises
      -- `KeyError` here even when the patch carries one.
      match grib_md_get h.kvs "edition" with
      | none => Except.error (Err.key_error "edition")
      | some selfEd =>
          let edition := (List.lookup "edition" d0).getD selfEd
          match conv gs edition with
          | Except.error e => Except.error e
          | Except.ok (md, nvs) => Except.ok (md_update d0 md, nvs)

/-- Steps 2-4 of `override`: clone the handle, re-copy `bitsPerValue` when the
patch does not set it, apply the merged patch in one batched set, and resize
the value buffer to zeros when a positive new point count was produced.  All
mutations act on the clone. -/
def override_apply (h : Handle) (headers_only_clone : Bool) (d : MD)
    (new_value_size : Option Nat) : Handle :=
  let handle := handle_clone headers_only_clone h
  let handle := if (List.lookup "bitsPerValue" d).isSome then handle
                else _copy_key h handle "bitsPerValue"
  let handle := if d ≠ [] then handle_set_multiple handle d else handle
  match new_value_size with
  | some n => if 0 < n then handle_set_values handle (List.replicate n 0) else handle
  | none => handle

/-- Source `GribMetadata.override`: derive the merged patch, clone the
facade's handle `w[i]`, apply the patch to the clone, and return a new
standalone facade wrapping the freshly appended handle.  The original handle
is never written. -/
def override (conv : D → Val → Except Err (MD × Option Nat)) (w : World) (i : Nat)
    (headers_only_clone : Bool) (gridspec : Option D) (d0 : MD) :
    Except Err (World × Nat) :=
  match w.get? i with
  | none => Except.error (Err.key_error "handle")
  | some h =>
      match override_patch conv h gridspec d0 with
      | Except.error e => Except.error e
      | Except.ok (d, new_value_size) =>
          Except.ok (w ++ [override_apply h headers_only_clone d new_value_size], w.length)

/-! ## Concrete inputs used by the claim theorems -/

/-- The §8 scenario metadata: a regular lat-lon field with `Ni=2`, `Nj=2`,
first/last lon 0 and 10, first/last lat 0 and -10, `iScansNegatively=0`. -/
def c7_md : MD :=
  [ ("gridType", Val.str "regular_ll"), ("Ni", Val.num 2), ("Nj", Val.num 2),
    ("longitudeOfFirstGridPointInDegrees", Val.num 0),
    ("longitudeOfLastGridPointInDegrees", Val.num 10),
    ("latitudeOfFirstGridPointInDegrees", Val.num 0),
    ("latitudeOfLastGridPointInDegrees", Val.num (-10)),
    ("iScansNegatively", Val.num 0) ]

/-- The GridSpec dict produced for `c7_md`. -/
def c7_d : D :=
  [ ("type", GVal.scalar (Val.str "regular_ll")),
    ("grid", GVal.vlist [some (Val.num 10), some (Val.num 10)]),
    ("area", GVal.vlist [some (Val.num 0), some (Val.num 0),
                         some (Val.num (-10)), some (Val.num 10)]),
    ("i_scans_negatively", GVal.scalar (Val.num 0)) ]

/-- A Lambert azimuthal-equal-area metadata object whose explicit x and y
metric increments differ. -/
def c8_md : MD :=
  [ ("gridType", Val.str "lambert_azimuthal_equal_area"),
    ("DxInMetres", Val.num 1000), ("DyInMetres", Val.num 2000),
    ("latitudeOfFirstGridPointInDegrees", Val.num 40),
    ("longitudeOfFirstGridPointInDegrees", Val.num 10),
    ("iScansNegatively", Val.num 0) ]

/-- A Lambert azimuthal-equal-area metadata object; first of a pair differing
only in `DxInMetres`. -/
def c1_mdA : MD :=
  [ ("gridType", Val.str "lambert_azimuthal_equal_area"),
    ("DxInMetres", Val.num 1000), ("DyInMetres", Val.num 2000),
    ("latitudeOfFirstGridPointInDegrees", Val.num 40),
    ("longitudeOfFirstGridPointInDegrees", Val.num 10),
    ("iScansNegatively", Val.num 0) ]

/-- Second of the pair: identical to `c1_mdA` except `DxInMetres`. -/
def c1_mdB : MD :=
  [ ("gridType", Val.str "lambert_azimuthal_equal_area"),
    ("DxInMetres", Val.num 500), ("DyInMetres", Val.num 2000),
    ("latitudeOfFirstGridPointInDegrees", Val.num 40),
    ("longitudeOfFirstGridPointInDegrees", Val.num 10),
    ("iScansNegatively", Val.num 0) ]

/-- A regular lat-lon metadata object with no explicit i increment, a sentinel
`numberOfPointsAlongAParallel` and a genuine `Ni`. -/
def c4_md : MD :=
  [ ("gridType", Val.str "regular_ll"),
    ("numberOfPointsAlongAParallel", Val.num 2147483647), ("Ni", Val.num 4),
    ("longitudeOfFirstGridPointInDegrees", Val.num 0),
    ("longitudeOfLastGridPointInDegrees", Val.num 10) ]

/-- A standalone metadata key/value view holding a value for the hidden
internal key `minimum`. -/
def c2_h : MD := [("minimum", Val.num 42), ("shortName", Val.str "t")]

/-! ## Claim theorems -/

/-- C7: for a regular lat-lon field with `Ni=2`, `Nj=2`, first/last lon 0/10,
first/last lat 0 and -10 and `iScansNegatively=0`, `make_gridspec` returns the
GridSpec with `type = "regular_ll"`, `grid = [10.0, 10.0]` and
`area = [0, 0, -10, 10]` (the full dict additionally carries the copied
scan-mode flag `i_scans_negatively = 0`, per the filtered scan-mode copy of
§4.1). -/
theorem c7_regular_ll_scenario :
    make_gridspec c7_md = Except.ok c7_d ∧
    List.lookup "type" c7_d = some (GVal.scalar (Val.str "regular_ll")) ∧
    List.lookup "grid" c7_d = some (GVal.vlist [some (Val.num 10), some (Val.num 10)]) ∧
    List.lookup "area" c7_d =
      some (GVal.vlist [some (Val.num 0), some (Val.num 0),
                        some (Val.num (-10)), some (Val.num 10)]) := by
  refine ⟨by decide, by decide, by decide, by decide⟩

/-- C8: the claim says the Lambert azimuthal-equal-area `grid` field is
`[|dx|, |dy|]` with `dx` read from the x-direction metric-increment keys
(`DxInMetres` / `xDirectionGridLengthInMetres`).  The code instead reads
`DyInMetres` first for `dx` (`LambertAEAGridSpecMaker._get_grid`), so a field
with `DxInMetres=1000`, `DyInMetres=2000` yields `grid = [2000, 2000]`, not
the claimed `[1000, 2000]`. -/
theorem c8_lambert_aea_grid_uses_dy_for_dx :
    mdGet c8_md "DxInMetres" = some (Val.num 1000) ∧
    mdGet c8_md "DyInMetres" = some (Val.num 2000) ∧
    (make_gridspec c8_md).map (fun d => List.lookup "grid" d) =
      Except.ok (some (GVal.vlist [some (Val.num 2000), some (Val.num 2000)])) ∧
    GVal.vlist [some (Val.num 2000), some (Val.num 2000)] ≠
      GVal.vlist [some (Val.num 1000), some (Val.num 2000)] := by
  refine ⟨by decide, by decide, by decide, by decide⟩

/-- C1: the derive-then-reconstitute round trip cannot be the identity on the
geometry-relevant key subset for the registered tag
`lambert_azimuthal_equal_area`, because the forward maker never reads
`DxInMetres` (it reads `DyInMetres` for the x increment): two metadata objects
that differ only in the geometry key `DxInMetres` produce the same GridSpec,
so no reverse converter `conv` can reproduce that key for both. -/
theorem c1_roundtrip_broken_for_lambert_aea :
    make_gridspec c1_mdA = make_gridspec c1_mdB ∧
    mdGet c1_mdA "DxInMetres" ≠ mdGet c1_mdB "DxInMetres" ∧
    ∀ conv : Except Err D → Option Val,
      conv (make_gridspec c1_mdA) ≠ mdGet c1_mdA "DxInMetres" ∨
      conv (make_gridspec c1_mdB) ≠ mdGet c1_mdB "DxInMetres" := by
  have heq : make_gridspec c1_mdA = make_gridspec c1_mdB := by decide
  have hne : mdGet c1_mdA "DxInMetres" ≠ mdGet c1_mdB "DxInMetres" := by decide
  refine ⟨heq, hne, ?_⟩
  intro conv
  by_cases hA : conv (make_gridspec c1_mdA) = mdGet c1_mdA "DxInMetres"
  · right
    rw [heq] at hA
    rw [hA]
    exact hne
  · left
    exact hA

/-- C4: the missing-value sentinel 2147483647 is honoured by
`GribFieldGeography.shape` (a sentinel `Nj` forces the total-point-count
1-tuple), but NOT by the point-count lookups of the GridSpec makers:
`_get_first_valid` returns a sentinel-valued key as a valid value, and the
lat-lon increment derivation consequently divides by `2147483646` instead of
skipping to the next key (`Ni=4`, which would give `10/3`). -/
theorem c4_sentinel_not_applied_in_gridspec_makers :
    shape [("Nj", Val.num 2147483647), ("Ni", Val.num 4),
           ("numberOfDataPoints", Val.num 13)] = Shape.one (some (Val.num 13)) ∧
    missing_is_none (some (Val.num 2147483647)) = none ∧
    _get_first_valid c4_md ["numberOfPointsAlongAParallel", "Ni"]
      "number of points in longitude" = Except.ok (Val.num 2147483647) ∧
    latlon_dx c4_md = Except.ok (Val.num (qdiv 10 2147483646)) ∧
    qdiv (10 : ℚ) 2147483646 = 10 / 2147483646 ∧
    qdiv (10 : ℚ) 2147483646 ≠ qdiv 10 3 := by
  refine ⟨by decide, by decide, by decide, by decide, qdiv_eq_div 10 2147483646, by decide⟩

/-- C2: the claim says hidden keys are absent through `get(k)` but reachable
through `get("grib." + k)`.  The hiding itself works, but the escape hatch
cannot: `RestrictedGribMetadata.get` strips the `grib.` prefix before calling
the `WrappedMetadata` get, so the bypass call and the plain call are
indistinguishable — for every possible behaviour of the (not-in-src)
`WrappedMetadata.get`, the two return the same value.  With the spec-modelled
`WrappedMetadata.get` both return the default `None`, although the wrapped
standalone metadata holds `42` for `minimum`. -/
theorem c2_escape_namespace_collapses :
    grib_md_get c2_h "minimum" = some (Val.num 42) ∧
    restricted_get (fun k => grib_md_get c2_h k) INTERNAL_KEYS "minimum" = none ∧
    restricted_get (fun k => grib_md_get c2_h k) INTERNAL_KEYS "grib.minimum" = none ∧
    ∀ inner : String → Option Val,
      restricted_get inner INTERNAL_KEYS "grib.minimum" =
        restricted_get inner INTERNAL_KEYS "minimum" := by
  refine ⟨by decide, by decide, by decide, fun inner => rfl⟩

/-- C5: the i-direction scan sign comes from a two-key fallback.  When
`iScansNegatively` is present, its value alone decides (`0` gives the positive
scan direction `1`, any other value the negative `-1`); when it is absent and
`iScansPositively` is present, that key decides (`1` gives positive, any other
value negative); when neither is present, the cannot-determine-scan-direction
error is raised. -/
theorem c5_x_scan_dir_precedence :
    (∀ md v, mdGet md "iScansNegatively" = some v →
        x_scan_dir md = Except.ok (if v = Val.num 0 then 1 else -1)) ∧
    (∀ md v, mdGet md "iScansNegatively" = none →
        mdGet md "iScansPositively" = some v →
        x_scan_dir md = Except.ok (if v = Val.num 1 then 1 else -1)) ∧
    (∀ md, mdGet md "iScansNegatively" = none →
        mdGet md "iScansPositively" = none →
        x_scan_dir md = Except.error Err.scan_mode_error) := by
  refine ⟨?_, ?_, ?_⟩
  · intro md v h
    unfold x_scan_dir
    rw [h]
  · intro md v h1 h2
    unfold x_scan_dir
    rw [h1, h2]
  · intro md h1 h2
    unfold x_scan_dir
    rw [h1, h2]

/-- Witness for C5 at concrete inputs: `iScansNegatively=0` alone gives the
positive direction, `iScansPositively=1` alone gives the positive direction,
and an empty metadata object raises the scan-direction error. -/
theorem c5_x_scan_dir_precedence_witness :
    x_scan_dir [("iScansNegatively", Val.num 0)] = Except.ok 1 ∧
    x_scan_dir [("iScansPositively", Val.num 1)] = Except.ok 1 ∧
    x_scan_dir [] = Except.error Err.scan_mode_error := by
  refine ⟨?_, ?_, ?_⟩
  · have h := c5_x_scan_dir_precedence.1 [("iScansNegatively", Val.num 0)]
      (Val.num 0) (by decide)
    simpa using h
  · have h := c5_x_scan_dir_precedence.2.1 [("iScansPositively", Val.num 1)]
      (Val.num 1) (by decide) (by decide)
    simpa using h
  · exact c5_x_scan_dir_precedence.2.2 [] (by decide) (by decide)

/-- C10: for every metadata object whose `gridType` misses the 11-tag registry
(an absent key, a non-string value, or an unregistered string), `make_gridspec`
raises the unsupported-grid-type error carrying that tag; it never returns a
GridSpec. -/
theorem c10_dispatch_unsupported :
    ∀ md, registered (mdGet md "gridType") = false →
      make_gridspec md = Except.error (Err.unsupported_grid_type (mdGet md "gridType")) := by
  intro md h
  cases hv : mdGet md "gridType" with
  | none => simp only [make_gridspec, hv]
  | some v =>
    cases v with
    | num q => simp only [make_gridspec, hv]
    | str s =>
      rw [hv] at h
      simp only [registered] at h
      cases hl : List.lookup s grid_specs with
      | some maker => rw [hl] at h; exact absurd h (by simp)
      | none => simp only [make_gridspec, hv, hl]

/-- Helper for C9: `_get_first_valid` only raises the two `ValueError`
variants, never a `ZeroDivisionError`. -/
theorem _get_first_valid_no_zero_div (md : MD) (keys : List String) (desc : String) :
    _get_first_valid md keys desc ≠ Except.error Err.zero_div_error := by
  unfold _get_first_valid
  cases h : keys.findSome? (fun k => mdGet md k) with
  | some v => simp
  | none =>
      by_cases hd : desc = ""
      · rw [if_pos hd]; simp
      · rw [if_neg hd]; simp

/-- Helper for C9: `pySub` only raises `TypeError`. -/
theorem pySub_no_zero_div (a b : Option Val) :
    pySub a b ≠ Except.error Err.zero_div_error := by
  unfold pySub
  split <;> simp

/-- Helper for C9: the lat-lon increment derivation never raises a
`ZeroDivisionError` — the divisor `n - 1` is only used when the point count
`n` along the axis is not `1`. -/
theorem derived_axis_increment_no_zero_div (md : MD) (ik : String) (cks : List String)
    (cd : String) (lk fk : String) :
    derived_axis_increment md ik cks cd lk fk ≠ Except.error Err.zero_div_error := by
  unfold derived_axis_increment
  cases h1 : mdGet md ik with
  | some v => simp
  | none =>
      cases h2 : _get_first_valid md cks cd with
      | error e =>
          intro hc
          simp only [Except.error.injEq] at hc
          exact _get_first_valid_no_zero_div md cks cd (by rw [h2, hc])
      | ok n =>
          cases h3 : pySub (mdGet md lk) (mdGet md fk) with
          | error e =>
              intro hc
              simp only [Except.error.injEq] at hc
              exact pySub_no_zero_div (mdGet md lk) (mdGet md fk) (by rw [h3, hc])
          | ok range =>
              by_cases h4 : n = Val.num 1
              · simp [h4]
              · cases n with
                | str s => simp [h4]
                | num q =>
                    have hq : q ≠ 1 := fun he => h4 (by rw [he])
                    have hdvsr : qsub q 1 ≠ 0 := by
                      rw [qsub_eq_sub]; exact sub_ne_zero.mpr hq
                    simp [h4, pyDiv, hdvsr]

/-- C9: for the regular/rotated/reduced lat-lon increment derivation
(`LatLonGridSpecMaker._get_grid` and the verbatim dy-branch duplicate in
`ReducedLatLonGridSpecMaker._get_grid`), no metadata object ever triggers a
division by zero, and with no explicit direction-increment key an axis whose
first valid point-count key holds exactly `1` yields the fixed increment
`1.0` (provided the coordinate range — which the source computes before the
single-point test — is computable). -/
theorem c9_single_point_axis_and_no_zero_div :
    (∀ md ik cks cd lk fk,
        derived_axis_increment md ik cks cd lk fk ≠ Except.error Err.zero_div_error) ∧
    (∀ md r, mdGet md "iDirectionIncrementInDegrees" = none →
        _get_first_valid md ["numberOfPointsAlongAParallel", "Ni"]
          "number of points in longitude" = Except.ok (Val.num 1) →
        pySub (mdGet md "longitudeOfLastGridPointInDegrees")
          (mdGet md "longitudeOfFirstGridPointInDegrees") = Except.ok r →
        latlon_dx md = Except.ok (Val.num 1)) ∧
    (∀ md r, mdGet md "jDirectionIncrementInDegrees" = none →
        _get_first_valid md ["numberOfPointsAlongAMeridian", "Nj"]
          "number of points in latitude" = Except.ok (Val.num 1) →
        pySub (mdGet md "latitudeOfLastGridPointInDegrees")
          (mdGet md "latitudeOfFirstGridPointInDegrees") = Except.ok r →
        latlon_dy md = Except.ok (Val.num 1)) := by
  refine ⟨derived_axis_increment_no_zero_div, ?_, ?_⟩
  · intro md r h1 h2 h3
    unfold latlon_dx derived_axis_increment
    simp [h1, h2, h3]
  · intro md r h1 h2 h3
    unfold latlon_dy derived_axis_increment
    simp [h1, h2, h3]

/-- Witness for C9: single-point axes on concrete lat-lon metadata give the
increment `1.0` for that axis. -/
theorem c9_single_point_axis_and_no_zero_div_witness :
    latlon_dx [("Ni", Val.num 1),
               ("longitudeOfFirstGridPointInDegrees", Val.num 0),
               ("longitudeOfLastGridPointInDegrees", Val.num 3)] = Except.ok (Val.num 1) ∧
    latlon_dy [("Nj", Val.num 1),
               ("latitudeOfFirstGridPointInDegrees", Val.num 0),
               ("latitudeOfLastGridPointInDegrees", Val.num 5)] = Except.ok (Val.num 1) := by
  constructor
  · exact c9_single_point_axis_and_no_zero_div.2.1 _ (qsub 3 0)
      (by decide) (by decide) (by decide)
  · exact c9_single_point_axis_and_no_zero_div.2.2 _ (qsub 5 0)
      (by decide) (by decide) (by decide)

/-- Witness for C10: a metadata object with the unregistered tag `"foo"`. -/
theorem c10_dispatch_unsupported_witness :
    make_gridspec [("gridType", Val.str "foo")] =
      Except.error (Err.unsupported_grid_type (some (Val.str "foo"))) := by
  have h := c10_dispatch_unsupported [("gridType", Val.str "foo")] (by decide)
  simpa using h

/-- A handle whose un-namespaced ("default") key set contains the hidden
internal key `average` alongside an ordinary key, and whose `statistics`
namespace contains it as well. -/
def c6_h : Handle :=
  { kvs := [],
    nss := [ (none, [("average", Val.num 42), ("shortName", Val.str "t")]),
             (some "statistics", [("average", Val.num 42)]) ],
    values := [] }

/-- Counterexample for C6: `RestrictedGribMetadata.dump` delegates to the
wrapped facade's (unrestricted) `dump`, so the hidden internal key `average`
survives in the returned `default` group, while `as_namespace` strips it. -/
theorem c6_dump_does_not_strip_hidden_keys :
    INTERNAL_KEYS.contains "average" = true ∧
    restricted_as_namespace c6_h (some "default") = [("shortName", Val.str "t")] ∧
    (restricted_dump c6_h NsArg.all).map (fun g => (g.title, List.lookup "average" g.data)) =
      [("default", some (Val.num 42))] := by
  refine ⟨by decide, by decide, by decide⟩

/-- Helper for C6: looking up a hidden key in a hidden-key-filtered mapping
gives `none`. -/
theorem lookup_filter_hidden (l : MD) (k : String)
    (h : INTERNAL_KEYS.contains k = true) :
    List.lookup k (l.filter (fun kv => !(INTERNAL_KEYS.contains kv.1))) = none := by
  induction l with
  | nil => rfl
  | cons a l ih =>
      obtain ⟨ak, av⟩ := a
      rw [List.filter_cons]
      cases hb : INTERNAL_KEYS.contains ak with
      | true =>
          rw [if_neg (by simp [hb])]
          exact ih
      | false =>
          have hne : (k == ak) = false := by
            cases heq : k == ak with
            | true =>
                rw [eq_of_beq heq] at h
                rw [h] at hb
                cases hb
            | false => rfl
          rw [if_pos (by simp [hb])]
          simp only [List.lookup, hne]
          exact ih

/-- C6 amended: `namespaces()` excludes the internal `statistics` namespace;
`as_namespace` returns the empty dict for `statistics` and strips every hidden
internal key from any other namespace's result; `dump()` (with the default
`namespace=all`) excludes the `statistics` namespace from the dumped groups,
but — unlike the claim — each remaining group holds the wrapped facade's
unrestricted namespace result, with hidden keys NOT stripped. -/
theorem c6_restricted_views_amended :
    restricted_namespaces =
      ["default", "ls", "geography", "mars", "parameter", "time", "vertical"] ∧
    (∀ h, restricted_as_namespace h (some "statistics") = []) ∧
    (∀ h ns k, INTERNAL_KEYS.contains k = true →
        List.lookup k (restricted_as_namespace h ns) = none) ∧
    (∀ h g, g ∈ restricted_dump h NsArg.all →
        g.title ≠ "statistics" ∧ g.data = gm_as_namespace h (some g.title)) := by
  refine ⟨by decide, fun h => rfl, ?_, ?_⟩
  · intro h ns k hk
    unfold restricted_as_namespace
    split
    · rfl
    · exact lookup_filter_hidden _ k hk
  · intro h g hg
    unfold restricted_dump gm_dump at hg
    rw [List.mem_filterMap] at hg
    obtain ⟨ns, hns, hf⟩ := hg
    have hsplit :
        gm_as_namespace h (some ns) = [] ∨
          g = { title := if ns = "" then "default" else ns,
                data := gm_as_namespace h (some ns),
                tooltip := "Keys in the ecCodes " ++ ns ++ " namespace" } := by
      by_cases hv : gm_as_namespace h (some ns) = []
      · exact Or.inl hv
      · right
        rw [if_neg hv] at hf
        exact (Option.some.inj hf).symm
    cases hsplit with
    | inl hv => rw [if_pos hv] at hf; cases hf
    | inr hgv =>
        have ht : g.title = if ns = "" then "default" else ns := by rw [hgv]
        have hd : g.data = gm_as_namespace h (some ns) := by rw [hgv]
        have hns2 : ns ≠ "" ∧ ns ≠ "statistics" := by
          fin_cases hns <;> exact ⟨by decide, by decide⟩
        constructor
        · rw [ht, if_neg hns2.1]
          exact hns2.2
        · rw [hd, ht, if_neg hns2.1]

/-- Witness for C6 (amended claim) at a concrete handle and hidden key. -/
theorem c6_restricted_views_amended_witness :
    List.lookup "average" (restricted_as_namespace c6_h (some "default")) = none ∧
    restricted_as_namespace c6_h (some "statistics") = [] :=
  ⟨c6_restricted_views_amended.2.2.1 c6_h (some "default") "average" (by decide),
   c6_restricted_views_amended.2.1 c6_h⟩

/-! ### C3: override immutability -/

theorem get?_append_left {α : Type} (l1 l2 : List α) (k : Nat) (h : k < l1.length) :
    (l1 ++ l2).get? k = l1.get? k := by
  induction l1 generalizing k with
  | nil => exact absurd h (Nat.not_lt_zero k)
  | cons a l ih =>
      cases k with
      | zero => rfl
      | succ n => simpa using ih n (Nat.lt_of_succ_lt_succ h)

theorem get?_of_length_le {α : Type} (l : List α) (k : Nat) (h : l.length ≤ k) :
    l.get? k = none := by
  induction l generalizing k with
  | nil => rfl
  | cons a l ih =>
      cases k with
      | zero => exact absurd h (Nat.not_succ_le_zero _)
      | succ n => exact ih n (Nat.le_of_succ_le_succ h)

theorem lt_of_get?_eq_some {α : Type} (l : List α) (k : Nat) (a : α)
    (h : l.get? k = some a) : k < l.length := by
  by_contra hlt
  rw [get?_of_length_le l k (Nat.le_of_not_lt hlt)] at h
  cases h

/-- C3: `override` never writes the original handle.  Whenever it succeeds,
every handle already in the world is unchanged (in particular the facade's own
handle `w[i]`), and the returned facade wraps a fresh handle: its index is
`w.length`, which is distinct from `i` and not a live index of the old
world.  This holds for every behaviour of the (not-in-src)
`GridSpecConverter.to_metadata`, every patch, and both clone modes. -/
theorem c3_override_immutable :
    ∀ (conv : D → Val → Except Err (MD × Option Nat)) (w : World) (i : Nat)
      (ho : Bool) (gs : Option D) (d0 : MD) (w2 : World) (j : Nat),
      override conv w i ho gs d0 = Except.ok (w2, j) →
      (∀ k, k < w.length → w2.get? k = w.get? k) ∧
      j = w.length ∧ i < w.length ∧ i ≠ j ∧
      w2.get? i = w.get? i ∧ w.get? j = none := by
  intro conv w i ho gs d0 w2 j hov
  unfold override at hov
  cases hg : w.get? i with
  | none => rw [hg] at hov; exact absurd hov (by simp)
  | some h =>
      rw [hg] at hov
      replace hov :
          (match override_patch conv h gs d0 with
           | Except.error e => Except.error e
           | Except.ok (d, new_value_size) =>
               Except.ok (w ++ [override_apply h ho d new_value_size], w.length)) =
            Except.ok ((w2, j) : World × Nat) := hov
      cases hp : override_patch conv h gs d0 with
      | error e => rw [hp] at hov; exact absurd hov (by simp)
      | ok pr =>
          rw [hp] at hov
          obtain ⟨d, nvs⟩ := pr
          replace hov :
              Except.ok ((w ++ [override_apply h ho d nvs], w.length) : World × Nat) =
                Except.ok (w2, j) := hov
          injection hov with hpair
          have hw2 : w ++ [override_apply h ho d nvs] = w2 := congrArg Prod.fst hpair
          have hj : w.length = j := congrArg Prod.snd hpair
          subst hw2
          subst hj
          have hi : i < w.length := lt_of_get?_eq_some w i h hg
          refine ⟨fun k hk => get?_append_left w _ k hk, rfl, hi, Nat.ne_of_lt hi,
                  (get?_append_left w _ i hi).trans hg,
                  get?_of_length_le w w.length (Nat.le_refl _)⟩

/-- Converter stub used by the C3 witness (any converter works). -/
def c3_conv : D → Val → Except Err (MD × Option Nat) := fun _ _ => Except.ok ([], none)

/-- A one-handle world for the C3 witness. -/
def c3_w : World :=
  [⟨[("edition", Val.num 1), ("shortName", Val.str "t")], [], [1, 2, 3]⟩]

/-- The world after the C3 witness override: the original handle untouched,
plus the patched clone. -/
def c3_w2 : World :=
  [⟨[("edition", Val.num 1), ("shortName", Val.str "t")], [], [1, 2, 3]⟩,
   ⟨[("edition", Val.num 1), ("shortName", Val.str "t"), ("centre", Val.str "x")], [], []⟩]

/-- Witness for C3: a concrete headers-only override that patches `centre`
leaves the original handle unchanged and returns the fresh index `1`. -/
theorem c3_override_immutable_witness :
    override c3_conv c3_w 0 true none [("centre", Val.str "x")] = Except.ok (c3_w2, 1) ∧
    c3_w2.get? 0 = c3_w.get? 0 ∧ (1 : Nat) = c3_w.length ∧
    (0 : Nat) < c3_w.length ∧ (0 : Nat) ≠ 1 := by
  have hov : override c3_conv c3_w 0 true none [("centre", Val.str "x")] =
      Except.ok (c3_w2, 1) := by decide
  have h := c3_override_immutable c3_conv c3_w 0 true none
    [("centre", Val.str "x")] c3_w2 1 hov
  exact ⟨hov, h.2.2.2.2.1, (h.2.1).symm, h.2.2.1, h.2.2.2.1⟩

end Grib
